import Mathlib

/-!
Shallow embedding of the whatsandra WhatsApp client library
(session-and-transport subsystem): `src/error.rs`, `src/lib.rs`,
`src/message.rs`, `src/crypto.rs`, `src/websocket.rs`, `src/client.rs`.

External collaborators are made explicit parameters of the embedding:
randomness (`Crypto::random_bytes`, `generate_key_pair`), the system
clock, and serde serialization enter as arguments; the tokio mpsc
channel is a FIFO list plus a closed flag (a tokio sender errs exactly
when the receiver end has been dropped); the on-disk store file is
identified with the in-memory map that `DeviceStore::save` serializes
to it; the thread spawned by `WebSocketHandler::connect` is run to its
first quiescent point synchronously, parameterized by whether the
socket to the endpoint can be established.
-/

/-- Error taxonomy of `src/error.rs` (`enum WhatsAppError`). -/
inductive WhatsAppError where
  | ConnectionError (msg : String)
  | AuthError (msg : String)
  | MessageSendError (msg : String)
  | MessageReceiveError (msg : String)
  | ProtocolError (msg : String)
  | SerializationError (msg : String)
  | DeserializationError (msg : String)
  | ParsingError (msg : String)
  | CryptoError (msg : String)
  | IOError (msg : String)
  | GroupError (msg : String)
  | MediaError (msg : String)
  | StoreError (msg : String)
  | UnknownError (msg : String)
  deriving DecidableEq

/-- `WhatsAppResult<T>` of `src/error.rs`. -/
abbrev WhatsAppResult (α : Type) := Except WhatsAppError α

/-- `struct JID` of `src/lib.rs` (u32 device id modelled as Nat). -/
structure JID where
  user : String
  server : String
  device : Option Nat
  deriving DecidableEq

/-- `JID::new` of `src/lib.rs`. -/
def JID.new (user server : String) (device : Option Nat) : JID :=
  { user := user, server := server, device := device }

/-- `enum MessageType` of `src/message.rs`. -/
inductive MessageType where
  | Text
  | Image
  | Video
  | Audio
  | Document
  | Contact
  | Location
  | Sticker
  | GroupInvite
  deriving DecidableEq

/-- `struct MediaInfo` of `src/message.rs` (bytes as Nat lists, u64 as Nat). -/
structure MediaInfo where
  mime_type : String
  sha256 : List Nat
  file_length : Nat
  file_name : Option String
  caption : Option String
  url : Option String
  deriving DecidableEq

/-- `struct Message` of `src/message.rs`. The `quoted: Option<Box<Message>>`
field makes the type recursive, so it is an inductive rather than a
structure; `context_info: HashMap<String, String>` is an association list. -/
inductive Message where
  | mk (id : String) (from_me : Bool) (timestamp : Nat) (message_type : MessageType)
      (chat_jid : JID) (sender_jid : Option JID) (text : Option String)
      (media : Option MediaInfo) (quoted : Option Message) (mentioned_jids : List JID)
      (is_ephemeral : Bool) (ephemeral_expiration : Option Nat)
      (context_info : List (String × String))

/-- Field accessor for `Message.id`. -/
def Message.id : Message → String
  | .mk id _ _ _ _ _ _ _ _ _ _ _ _ => id

/-- `Message::new_text` of `src/message.rs`. The random message id
(`generate_message_id`) and the clock reading are external inputs and are
passed in as parameters. -/
def Message.new_text (id : String) (timestamp : Nat) (chat_jid : JID) (text : String) : Message :=
  .mk id true timestamp .Text chat_jid none (some text) none none [] false none []

/-- `enum ReceiptStatus` of `src/message.rs`. -/
inductive ReceiptStatus where
  | Sent
  | Delivered
  | Read
  | Played
  | Failed
  deriving DecidableEq

/-- `struct MessageReceipt` of `src/message.rs`. -/
structure MessageReceipt where
  message_id : String
  status : ReceiptStatus
  timestamp : Nat
  recipient : JID
  deriving DecidableEq

/-- `enum Event` of `src/lib.rs`. -/
inductive Event where
  | Connected
  | Disconnected
  | QRCodeGenerated (code : String)
  | LoggedIn (jid : JID)
  | LoggedOut
  | MessageReceived (m : Message)
  | MessageStatus (r : MessageReceipt)
  | GroupUpdate (jid : JID) (info : String)
  | Presence (jid : JID) (present : Bool)
  | Error (e : WhatsAppError)
  | Custom (kind payload : String)

/-- Discriminator: is this the `Connected` event? -/
def Event.isConnectedEv : Event → Bool
  | .Connected => true
  | _ => false

/-- Discriminator: is this the `Disconnected` event? -/
def Event.isDisconnectedEv : Event → Bool
  | .Disconnected => true
  | _ => false

/-- `struct KeyPair` of `src/crypto.rs` (`private`/`public` byte vectors;
`private` is a Lean keyword, hence the guillemets). -/
structure KeyPair where
  «private» : List Nat
  «public» : List Nat
  deriving DecidableEq

/-- One hex digit, lower case, as produced by `hex::encode`. -/
def hexDigit (n : Nat) : Char :=
  if n < 10 then Char.ofNat (48 + n) else Char.ofNat (87 + n)

/-- Hex rendering of one byte (two lower-case digits), as in `hex::encode`. -/
def byteToHex (b : Nat) : String :=
  String.mk [hexDigit (b / 16 % 16), hexDigit (b % 16)]

/-- `hex::encode` over a byte vector. -/
def hexEncode (bs : List Nat) : String :=
  bs.foldl (fun acc b => acc ++ byteToHex b) ""

/-- The XOR loop shared by `Crypto::aes_encrypt` of `src/crypto.rs`:
`output.push(byte ^ key[i % key.len()] ^ iv[i % iv.len()])` for each
`(i, byte)` of `data`. An out-of-range index (`i % 0` panics in Rust when
`key` or `iv` is empty) is modelled by `none`. -/
def aesXorGo (key iv : List Nat) (i : Nat) : List Nat → Option (List Nat)
  | [] => some []
  | b :: rest =>
    (key[i % key.length]?).bind fun k =>
      (iv[i % iv.length]?).bind fun v =>
        (aesXorGo key iv (i + 1) rest).map fun tail => (b ^^^ k ^^^ v) :: tail

/-- `Crypto::aes_encrypt` of `src/crypto.rs`: the placeholder XOR cipher.
`none` models the Rust panic on an empty `key` or `iv` with nonempty data. -/
def Crypto.aes_encrypt (key iv data : List Nat) : Option (List Nat) :=
  aesXorGo key iv 0 data

/-- `Crypto::aes_decrypt` of `src/crypto.rs`: defined as `aes_encrypt`
because XOR is symmetric. -/
def Crypto.aes_decrypt (key iv data : List Nat) : Option (List Nat) :=
  Crypto.aes_encrypt key iv data

/-- `enum WebSocketMessage` of `src/websocket.rs`. -/
inductive WebSocketMessage where
  | Text (s : String)
  | Binary (data : List Nat)
  | Ping
  | Pong
  | Close

/-- State of a `WebSocketHandler` of `src/websocket.rs`.
`tx` is the stored sender handle (`Option<Sender<WebSocketMessage>>`);
`queue`/`queueClosed` model the tokio mpsc channel the current sender
feeds: its buffered frames in FIFO order, and whether its receiver end
has been dropped (a tokio `Sender::send` errs exactly then);
`connected` is the shared connection flag; `events` is the ordered trace
of events raised through the handler's event callback. -/
structure WSState where
  tx : Option Unit
  queue : List WebSocketMessage
  queueClosed : Bool
  connected : Bool
  events : List Event

/-- `WebSocketHandler::new` of `src/websocket.rs`: no sender, not connected. -/
def WebSocketHandler.new : WSState :=
  { tx := none, queue := [], queueClosed := false, connected := false, events := [] }

/-- `WebSocketHandler::send` of `src/websocket.rs`: with no stored sender it
fails with `ConnectionError("Not connected")`; with a sender it awaits
`sender.send(message)`, which enqueues the frame, or errs with
`ConnectionError("Failed to send message: ...")` when the channel's
receiver has been dropped (tokio's `SendError` displays "channel closed"). -/
def WebSocketHandler.send (message : WebSocketMessage) (st : WSState) :
    WhatsAppResult Unit × WSState :=
  match st.tx with
  | none => (Except.error (WhatsAppError.ConnectionError "Not connected"), st)
  | some _ =>
    if st.queueClosed then
      (Except.error (WhatsAppError.ConnectionError "Failed to send message: channel closed"), st)
    else
      (Except.ok (), { st with queue := st.queue ++ [message] })

/-- `WebSocketHandler::is_connected` of `src/websocket.rs`. -/
def WebSocketHandler.is_connected (st : WSState) : Bool :=
  st.connected

/-- `WebSocketHandler::disconnect` of `src/websocket.rs`: sends a Close frame
(propagating a send failure with `?` before anything is cleared), then
clears the sender handle and the connected flag. -/
def WebSocketHandler.disconnect (st : WSState) : WhatsAppResult Unit × WSState :=
  let r := WebSocketHandler.send WebSocketMessage.Close st
  match r.fst with
  | Except.error e => (Except.error e, r.snd)
  | Except.ok _ => (Except.ok (), { r.snd with tx := none, connected := false })

/-- `WebSocketHandler::connect` of `src/websocket.rs`: creates a fresh mpsc
channel, stores its sender in `tx` (before any socket work), then spawns
`run_websocket` on a new thread and returns `Ok(())` unconditionally.
The spawned computation is run here synchronously to its first quiescent
point, parameterized by `socketOk` (whether `ClientBuilder::connect`
succeeds): on success `run_websocket` sets `connected` and raises
`Connected` (its reader/writer loops then block on I/O); on failure
`run_websocket` returns `Err`, dropping the receiver (closing the
channel), and the spawning closure logs the error, raises `Disconnected`
and clears `connected` — the caller still sees `Ok(())`. -/
def WebSocketHandler.connect (socketOk : Bool) (st : WSState) :
    WhatsAppResult Unit × WSState :=
  let st1 : WSState := { st with tx := some (), queue := [], queueClosed := false }
  if socketOk then
    (Except.ok (), { st1 with connected := true, events := st1.events ++ [Event.Connected] })
  else
    (Except.ok (), { st1 with queueClosed := true, connected := false,
                              events := st1.events ++ [Event.Disconnected] })

/-- Termination of the reader loop of `run_websocket` (`src/websocket.rs`
lines 131-178): on a Close frame or a receive error the loop breaks,
clears `connected` and raises `Disconnected`. The main channel receiver
(held by `run_websocket`'s final loop) stays alive, so `tx`, `queue` and
`queueClosed` are untouched. -/
def WebSocketHandler.readerLoopEnd (st : WSState) : WSState :=
  { st with connected := false, events := st.events ++ [Event.Disconnected] }

/-- One `DeviceStore` data map (`src/client.rs`): the in-memory
`HashMap<String, String>`, identified with the file `save` serializes.
Modelled as an association list observed only through get/set/remove. -/
abbrev StoreMap := List (String × String)

/-- `DeviceStore::get` of `src/client.rs`. -/
def DeviceStore.get (data : StoreMap) (key : String) : Option String :=
  (data.find? fun kv => kv.fst == key).map Prod.snd

/-- `DeviceStore::set` of `src/client.rs`: insert/replace, then `save`
(persistence is the map itself in this model, and succeeds). -/
def DeviceStore.set (data : StoreMap) (key value : String) : StoreMap :=
  (key, value) :: data.filter fun kv => kv.fst != key

/-- `DeviceStore::remove` of `src/client.rs`. -/
def DeviceStore.remove (data : StoreMap) (key : String) : StoreMap :=
  data.filter fun kv => kv.fst != key

/-- `struct AuthState` of `src/client.rs`. -/
structure AuthState where
  jid : JID
  key_pair : KeyPair
  session_id : String
  secret : List Nat

/-- State of the `Client` of `src/client.rs`: its store map, device id,
optional auth state, and the owned `WebSocketHandler`. -/
structure ClientState where
  store : StoreMap
  device_id : String
  auth_state : Option AuthState
  ws : WSState

/-- `Client::new` of `src/client.rs`: loads `device_id` from the store, or
mints `"rust_" + hex(random_bytes(4))` (the four random bytes enter as
`freshBytes`) and persists it immediately via `store.set`; `auth_state`
starts `None` and the websocket handler is freshly constructed. -/
def Client.new (freshBytes : List Nat) (store : StoreMap) : ClientState :=
  match DeviceStore.get store "device_id" with
  | some id =>
    { store := store, device_id := id, auth_state := none, ws := WebSocketHandler.new }
  | none =>
    let id := "rust_" ++ hexEncode freshBytes
    { store := DeviceStore.set store "device_id" id, device_id := id,
      auth_state := none, ws := WebSocketHandler.new }

/-- `Client::is_connected` of `src/client.rs`: delegates to the handler. -/
def Client.is_connected (c : ClientState) : Bool :=
  WebSocketHandler.is_connected c.ws

/-- `Client::is_authenticated` of `src/client.rs`: `auth_state` is `Some`. -/
def Client.is_authenticated (c : ClientState) : Bool :=
  c.auth_state.isSome

/-- `Client::connect` of `src/client.rs`: delegates to the handler. -/
def Client.connect (socketOk : Bool) (c : ClientState) :
    WhatsAppResult Unit × ClientState :=
  let r := WebSocketHandler.connect socketOk c.ws
  (r.fst, { c with ws := r.snd })

/-- `Client::generate_qr_code` of `src/client.rs`: mints a key pair, a
random session id (`hex(random_bytes(8))`) and a 32-byte secret — all
randomness enters as parameters — stores them as the new `AuthState`
(replacing any previous one) and returns the placeholder pairing token
`"whatsapp://1234567890?key={session_id}"`. -/
def Client.generate_qr_code (kp : KeyPair) (sessionBytes secretBytes : List Nat)
    (c : ClientState) : WhatsAppResult String × ClientState :=
  let session_id := hexEncode sessionBytes
  let auth : AuthState :=
    { jid := JID.new "placeholder" "s.whatsapp.net" none, key_pair := kp,
      session_id := session_id, secret := secretBytes }
  (Except.ok ("whatsapp://1234567890?key=" ++ session_id), { c with auth_state := some auth })

/-- `Client::send_message` of `src/client.rs`: fails with
`ConnectionError("Not connected")` when not connected, then with
`AuthError("Not authenticated")` when `auth_state` is `None`; otherwise
serializes the message (serde is external, so serialization enters as
the `toJson` parameter), forwards the text frame to the handler's send,
and returns the message id. -/
def Client.send_message (toJson : Message → WhatsAppResult String)
    (message : Message) (c : ClientState) : WhatsAppResult String × ClientState :=
  if !Client.is_connected c then
    (Except.error (WhatsAppError.ConnectionError "Not connected"), c)
  else if c.auth_state.isNone then
    (Except.error (WhatsAppError.AuthError "Not authenticated"), c)
  else
    match toJson message with
    | Except.error e => (Except.error e, c)
    | Except.ok json =>
      let r := WebSocketHandler.send (WebSocketMessage.Text json) c.ws
      match r.fst with
      | Except.error e => (Except.error e, { c with ws := r.snd })
      | Except.ok _ => (Except.ok message.id, { c with ws := r.snd })

/-- `Client::logout` of `src/client.rs`: clears `auth_state` first, removes
the persisted `"credentials"` entry (store persistence succeeds in this
model), then disconnects the handler, propagating its error with `?`. -/
def Client.logout (c : ClientState) : WhatsAppResult Unit × ClientState :=
  let c1 : ClientState := { c with auth_state := none }
  let c2 : ClientState := { c1 with store := DeviceStore.remove c1.store "credentials" }
  let r := WebSocketHandler.disconnect c2.ws
  (r.fst, { c2 with ws := r.snd })

/-- `Client::disconnect` of `src/client.rs`: delegates to the handler. -/
def Client.disconnect (c : ClientState) : WhatsAppResult Unit × ClientState :=
  let r := WebSocketHandler.disconnect c.ws
  (r.fst, { c with ws := r.snd })

/-- `Client::add_event_handler` of `src/lib.rs` (the second `Client` of the
crate root): appends a handler to the registration list. An observer is a
side-effecting closure `Fn(Event)`, embedded as a state transformer on an
observation state `σ`. -/
def LibClient.add_event_handler {σ : Type} (handlers : List (Event → σ → σ))
    (h : Event → σ → σ) : List (Event → σ → σ) :=
  handlers ++ [h]

/-- `Client::dispatch_event` of `src/lib.rs`: iterates the registered
handlers in list order on the calling thread, invoking each with a clone
of the event; the sequential invocations thread the observation state. -/
def LibClient.dispatch_event {σ : Type} (handlers : List (Event → σ → σ))
    (e : Event) (s : σ) : σ :=
  handlers.foldl (fun s h => h e s) s

/-- Instrumented observer number `i`: records its own invocation (its index
and the event it received) at the end of a log. -/
def logObserver (i : Nat) : Event → List (Nat × Event) → List (Nat × Event) :=
  fun e log => log ++ [(i, e)]

/-- Registration of `n` instrumented observers, in index order, each through
`add_event_handler`. -/
def registerAll (n : Nat) : List (Event → List (Nat × Event) → List (Nat × Event)) :=
  (List.range n).foldl (fun hs i => LibClient.add_event_handler hs (logObserver i)) []

/-- Is a result `Ok`? -/
def isOkResult {α : Type} : WhatsAppResult α → Bool
  | Except.ok _ => true
  | Except.error _ => false

/-- Is a result an `AuthError`? -/
def isAuthErrorResult {α : Type} : WhatsAppResult α → Bool
  | Except.error (WhatsAppError.AuthError _) => true
  | _ => false

/-- Is a result a `ConnectionError` (any message)? -/
def isConnectionErrorResult {α : Type} : WhatsAppResult α → Bool
  | Except.error (WhatsAppError.ConnectionError _) => true
  | _ => false

/-- Is a result exactly `ConnectionError("Not connected")`? -/
def isNotConnectedError {α : Type} : WhatsAppResult α → Bool
  | Except.error (WhatsAppError.ConnectionError s) => s == "Not connected"
  | _ => false

/-- A concrete serializer standing in for serde_json in concrete runs. -/
def sampleToJson : Message → WhatsAppResult String :=
  fun _ => Except.ok "json"

/-- A concrete message for concrete runs. -/
def sampleMessage : Message :=
  Message.new_text "id1" 0 (JID.new "12345" "s.whatsapp.net" none) "hello"

/-- A concrete key pair for concrete runs. -/
def sampleKeyPair : KeyPair :=
  { «private» := [1], «public» := [2] }

/-- A client constructed against a fresh (empty) store, as `Client::new`
yields it with four zero random bytes. -/
def freshClient : ClientState :=
  Client.new [0, 0, 0, 0] []

/-- XOR with the same key and iv byte twice restores the original byte. -/
theorem xorRound (b k v : Nat) : b ^^^ k ^^^ v ^^^ k ^^^ v = b := by
  apply Nat.eq_of_testBit_eq
  intro i
  simp only [Nat.testBit_xor]
  cases b.testBit i <;> cases k.testBit i <;> cases v.testBit i <;> rfl

/-- The XOR loop of the placeholder cipher is self-inverse at every start
index, given nonempty key and iv. -/
theorem aesXorGo_roundtrip (key iv : List Nat) (hk : key ≠ []) (hv : iv ≠ []) :
    ∀ (data : List Nat) (i : Nat),
      ∃ c, aesXorGo key iv i data = some c ∧ aesXorGo key iv i c = some data := by
  intro data
  induction data with
  | nil => exact fun i => ⟨[], rfl, rfl⟩
  | cons b rest ih =>
    intro i
    obtain ⟨c, hc1, hc2⟩ := ih (i + 1)
    have hkl : i % key.length < key.length := Nat.mod_lt _ (List.length_pos.mpr hk)
    have hvl : i % iv.length < iv.length := Nat.mod_lt _ (List.length_pos.mpr hv)
    refine ⟨(b ^^^ key[i % key.length] ^^^ iv[i % iv.length]) :: c, ?_, ?_⟩
    · simp [aesXorGo, List.getElem?_eq_getElem, hkl, hvl, hc1]
    · simp [aesXorGo, List.getElem?_eq_getElem, hkl, hvl, hc2, xorRound]

/-- The client the fresh client reaches after a successful `connect`. -/
def connectedNoAuthClient : ClientState :=
  (Client.connect true freshClient).snd

/-- The client reached by: fresh store, successful connect,
`generate_qr_code`, `logout` — the natural lifecycle behind claim C4. -/
def loggedOutClient : ClientState :=
  (Client.logout (Client.generate_qr_code sampleKeyPair [3] [4]
    (Client.connect true freshClient).snd).snd).snd

/-- `logout` clears `auth_state` in every client state (it is cleared before
the store removal and the disconnect, whose outcome cannot restore it). -/
theorem logout_auth_none (c : ClientState) : (Client.logout c).snd.auth_state = none := rfl

/-- C10: for every byte sequence `data` and every nonempty `key` and `iv`,
`aes_decrypt key iv (aes_encrypt key iv data)` succeeds and returns `data`:
the placeholder cipher is a self-inverse XOR and decrypt is defined as
encrypt; nonemptiness keeps the `key[i % key.len()]` indices in range. -/
theorem C10_aes_encrypt_decrypt_roundtrip (key iv data : List Nat)
    (hk : key ≠ []) (hv : iv ≠ []) :
    ∃ c, Crypto.aes_encrypt key iv data = some c ∧
      Crypto.aes_decrypt key iv c = some data := by
  obtain ⟨c, h1, h2⟩ := aesXorGo_roundtrip key iv hk hv data 0
  exact ⟨c, h1, h2⟩

/-- Witness for C10 at key `[1]`, iv `[2]`, data `[5, 6]`. -/
theorem C10_aes_encrypt_decrypt_roundtrip_witness :
    ([1] : List Nat) ≠ [] ∧ ([2] : List Nat) ≠ [] ∧
      ∃ c, Crypto.aes_encrypt [1] [2] [5, 6] = some c ∧
        Crypto.aes_decrypt [1] [2] c = some [5, 6] :=
  ⟨by decide, by decide,
    C10_aes_encrypt_decrypt_roundtrip [1] [2] [5, 6] (by decide) (by decide)⟩

/-- C5: whenever the client is not connected, `send_message` returns
`ConnectionError("Not connected")`, regardless of the auth state: the
connection check is the first thing `send_message` does. -/
theorem C5_send_message_not_connected (toJson : Message → WhatsAppResult String)
    (m : Message) (c : ClientState) (h : Client.is_connected c = false) :
    (Client.send_message toJson m c).fst =
      Except.error (WhatsAppError.ConnectionError "Not connected") := by
  simp [Client.send_message, h]

/-- Witness for C5 at the fresh (never connected) client. -/
theorem C5_send_message_not_connected_witness :
    Client.is_connected freshClient = false ∧
      (Client.send_message sampleToJson sampleMessage freshClient).fst =
        Except.error (WhatsAppError.ConnectionError "Not connected") :=
  ⟨rfl, C5_send_message_not_connected sampleToJson sampleMessage freshClient rfl⟩

/-- C2 (amended): with `AuthState` empty, `send_message` returns `AuthError`
only when the client is connected; when it is not connected, the
connection check fires first and `send_message` returns
`ConnectionError("Not connected")` instead. -/
theorem C2_send_message_empty_auth (toJson : Message → WhatsAppResult String)
    (m : Message) (c : ClientState) (hauth : c.auth_state = none) :
    (Client.is_connected c = true →
      (Client.send_message toJson m c).fst =
        Except.error (WhatsAppError.AuthError "Not authenticated")) ∧
    (Client.is_connected c = false →
      (Client.send_message toJson m c).fst =
        Except.error (WhatsAppError.ConnectionError "Not connected")) := by
  constructor
  · intro hc
    simp [Client.send_message, hc, hauth]
  · intro hc
    simp [Client.send_message, hc]

/-- Counterexample to C2 as stated: the fresh client has empty `AuthState`
and is not connected, and `send_message` returns `ConnectionError`, not an
`AuthError` — so "AuthError regardless of connection status" is false. -/
theorem C2_counterexample :
    freshClient.auth_state = none ∧
    Client.is_connected freshClient = false ∧
    isAuthErrorResult (Client.send_message sampleToJson sampleMessage freshClient).fst = false ∧
    (Client.send_message sampleToJson sampleMessage freshClient).fst =
      Except.error (WhatsAppError.ConnectionError "Not connected") :=
  ⟨rfl, rfl, rfl, rfl⟩

/-- Witness for the amended C2 at a connected client with empty auth state. -/
theorem C2_send_message_empty_auth_witness :
    connectedNoAuthClient.auth_state = none ∧
    Client.is_connected connectedNoAuthClient = true ∧
    (Client.send_message sampleToJson sampleMessage connectedNoAuthClient).fst =
      Except.error (WhatsAppError.AuthError "Not authenticated") :=
  ⟨rfl, rfl,
    (C2_send_message_empty_auth sampleToJson sampleMessage connectedNoAuthClient rfl).1 rfl⟩

/-- C4 (amended): after `logout()` is invoked, `is_authenticated()` returns
false in every client state, and a subsequent `send_message` still fails —
but when the transport ends up disconnected (as a successful logout leaves
it) the failure is `ConnectionError("Not connected")`, because the
connection check precedes the auth check; an `AuthError` is only possible
in the corner where the connected flag survives a failed disconnect. -/
theorem C4_logout_blocks_send (toJson : Message → WhatsAppResult String)
    (m : Message) (c : ClientState) :
    Client.is_authenticated (Client.logout c).snd = false ∧
    isOkResult (Client.send_message toJson m (Client.logout c).snd).fst = false ∧
    (Client.is_connected (Client.logout c).snd = false →
      (Client.send_message toJson m (Client.logout c).snd).fst =
        Except.error (WhatsAppError.ConnectionError "Not connected")) := by
  have hauth := logout_auth_none c
  refine ⟨?_, ?_, ?_⟩
  · simp [Client.is_authenticated, hauth]
  · cases hc : Client.is_connected (Client.logout c).snd with
    | false => simp [Client.send_message, hc, isOkResult]
    | true => simp [Client.send_message, hc, hauth, isOkResult]
  · intro hc
    simp [Client.send_message, hc]

/-- Counterexample to C4 as stated: run the natural lifecycle (fresh store,
successful connect, `generate_qr_code`, `logout`); `is_authenticated()` is
false, but the subsequent `send_message` fails with
`ConnectionError("Not connected")`, not with an `AuthError`. -/
theorem C4_counterexample :
    Client.is_authenticated loggedOutClient = false ∧
    isAuthErrorResult (Client.send_message sampleToJson sampleMessage loggedOutClient).fst
      = false ∧
    (Client.send_message sampleToJson sampleMessage loggedOutClient).fst =
      Except.error (WhatsAppError.ConnectionError "Not connected") :=
  ⟨rfl, rfl, rfl⟩

/-- Witness for the amended C4 at the fresh client (logout without connect). -/
theorem C4_logout_blocks_send_witness :
    Client.is_connected (Client.logout freshClient).snd = false ∧
    (Client.send_message sampleToJson sampleMessage (Client.logout freshClient).snd).fst =
      Except.error (WhatsAppError.ConnectionError "Not connected") :=
  ⟨rfl, (C4_logout_blocks_send sampleToJson sampleMessage freshClient).2.2 rfl⟩

/-- C1 (amended): on a client with empty `AuthState`, `generate_qr_code`
returns `Ok` with a non-empty token string, but immediately afterwards
`is_authenticated()` returns true, not false: the code stores the freshly
minted pairing credentials as the `AuthState`, and `is_authenticated` is
merely `auth_state.is_some()`, so issuing a pairing token is not kept
distinct from being authenticated. -/
theorem C1_generate_qr_code_token_and_auth (kp : KeyPair)
    (sessionBytes secretBytes : List Nat) (c : ClientState)
    (_hauth : c.auth_state = none) :
    ∃ tok, (Client.generate_qr_code kp sessionBytes secretBytes c).fst = Except.ok tok ∧
      tok ≠ "" ∧
      Client.is_authenticated (Client.generate_qr_code kp sessionBytes secretBytes c).snd
        = true := by
  refine ⟨"whatsapp://1234567890?key=" ++ hexEncode sessionBytes, rfl, ?_, rfl⟩
  intro h
  have hlen := congrArg String.length h
  rw [String.length_append] at hlen
  have h26 : ("whatsapp://1234567890?key=" : String).length = 26 := rfl
  have h0 : ("" : String).length = 0 := rfl
  omega

/-- Counterexample to C1 as stated: on the fresh client (empty auth state),
`generate_qr_code` returns `Ok`, yet `is_authenticated()` reports true
immediately afterwards, while the claim demands false. -/
theorem C1_counterexample :
    freshClient.auth_state = none ∧
    isOkResult (Client.generate_qr_code sampleKeyPair [3] [4] freshClient).fst = true ∧
    Client.is_authenticated (Client.generate_qr_code sampleKeyPair [3] [4] freshClient).snd
      = true :=
  ⟨rfl, rfl, rfl⟩

/-- Witness for the amended C1 at the fresh client. -/
theorem C1_generate_qr_code_token_and_auth_witness :
    freshClient.auth_state = none ∧
    ∃ tok, (Client.generate_qr_code sampleKeyPair [3] [4] freshClient).fst = Except.ok tok ∧
      tok ≠ "" ∧
      Client.is_authenticated (Client.generate_qr_code sampleKeyPair [3] [4] freshClient).snd
        = true :=
  ⟨rfl, C1_generate_qr_code_token_and_auth sampleKeyPair [3] [4] freshClient rfl⟩

/-- A value just set in the device store is read back by `get`. -/
theorem deviceStore_get_set (data : StoreMap) (k v : String) :
    DeviceStore.get (DeviceStore.set data k v) k = some v := by
  simp [DeviceStore.get, DeviceStore.set, List.find?]

/-- C6: constructing the client twice against the same (initially fresh)
store yields the same device identity: the first construction mints
`"rust_" + hex(random)` and persists it via `DeviceStore::set`, the second
loads exactly that token from the store instead of minting a new one. -/
theorem C6_device_id_stable (store : StoreMap) (bytes1 bytes2 : List Nat)
    (h : DeviceStore.get store "device_id" = none) :
    (Client.new bytes1 store).device_id = "rust_" ++ hexEncode bytes1 ∧
    DeviceStore.get (Client.new bytes1 store).store "device_id" =
      some (Client.new bytes1 store).device_id ∧
    (Client.new bytes2 (Client.new bytes1 store).store).device_id =
      (Client.new bytes1 store).device_id := by
  have hid := deviceStore_get_set store "device_id" ("rust_" ++ hexEncode bytes1)
  refine ⟨?_, ?_, ?_⟩ <;> simp [Client.new, h, hid]

/-- Witness for C6 at the empty store with two different random draws. -/
theorem C6_device_id_stable_witness :
    DeviceStore.get [] "device_id" = none ∧
    ((Client.new [1, 2, 3, 4] []).device_id = "rust_" ++ hexEncode [1, 2, 3, 4] ∧
      DeviceStore.get (Client.new [1, 2, 3, 4] []).store "device_id" =
        some (Client.new [1, 2, 3, 4] []).device_id ∧
      (Client.new [5, 6, 7, 8] (Client.new [1, 2, 3, 4] []).store).device_id =
        (Client.new [1, 2, 3, 4] []).device_id) :=
  ⟨rfl, C6_device_id_stable [] [1, 2, 3, 4] [5, 6, 7, 8] rfl⟩

/-- Registering observers one at a time through `add_event_handler` appends
them, so the registration list is the observers in registration order. -/
theorem registerAll_eq_map (l : List Nat)
    (acc : List (Event → List (Nat × Event) → List (Nat × Event))) :
    l.foldl (fun hs i => LibClient.add_event_handler hs (logObserver i)) acc =
      acc ++ l.map logObserver := by
  induction l generalizing acc with
  | nil => simp
  | cons a t ih =>
    rw [List.foldl_cons, ih]
    simp [LibClient.add_event_handler]

/-- Dispatching to a list of instrumented observers appends one log entry
per observer, in list order, each carrying the dispatched event. -/
theorem dispatch_event_log (l : List Nat) (e : Event) (log : List (Nat × Event)) :
    LibClient.dispatch_event (l.map logObserver) e log =
      log ++ l.map fun i => (i, e) := by
  induction l generalizing log with
  | nil => simp [LibClient.dispatch_event]
  | cons a t ih =>
    simp only [List.map_cons, LibClient.dispatch_event, List.foldl_cons] at *
    rw [ih]
    simp [logObserver]

/-- C7: registering `n` observers and dispatching one event invokes each
observer exactly once, in registration order, each receiving the raised
event; the invocation log after `dispatch_event` is exactly
`(0, e), (1, e), ..., (n-1, e)`. The dispatch is a plain sequential fold
on the raising caller, i.e. synchronous. -/
theorem C7_dispatch_in_registration_order (n : Nat) (e : Event) :
    LibClient.dispatch_event (registerAll n) e [] =
      (List.range n).map fun i => (i, e) := by
  have hreg : registerAll n = (List.range n).map logObserver := by
    simpa [registerAll] using registerAll_eq_map (List.range n) []
  rw [hreg]
  simpa using dispatch_event_log (List.range n) e []

/-- C3 (amended): when the socket to the endpoint cannot be established,
`connect()` still returns `Ok(())` to the caller — the failure happens on
the spawned thread, where it is only logged — no `Connected` event is ever
raised, and a `Disconnected` event is raised exactly once. -/
theorem C3_connect_unreachable (st : WSState) (h : st.events = []) :
    (WebSocketHandler.connect false st).fst = Except.ok () ∧
    ((WebSocketHandler.connect false st).snd.events.countP Event.isConnectedEv) = 0 ∧
    ((WebSocketHandler.connect false st).snd.events.countP Event.isDisconnectedEv) = 1 := by
  refine ⟨rfl, ?_, ?_⟩ <;>
    simp [WebSocketHandler.connect, h, List.countP_cons, Event.isConnectedEv,
      Event.isDisconnectedEv]

/-- Counterexample to C3 as stated: on a fresh handler with an unreachable
endpoint, `connect()` does not return a `ConnectionError` — it returns
`Ok(())` — while the event trace is exactly one `Disconnected`. -/
theorem C3_counterexample :
    isConnectionErrorResult (WebSocketHandler.connect false WebSocketHandler.new).fst
      = false ∧
    (WebSocketHandler.connect false WebSocketHandler.new).fst = Except.ok () ∧
    (WebSocketHandler.connect false WebSocketHandler.new).snd.events
      = [Event.Disconnected] :=
  ⟨rfl, rfl, rfl⟩

/-- Witness for the amended C3 at a fresh handler. -/
theorem C3_connect_unreachable_witness :
    (WebSocketHandler.connect false WebSocketHandler.new).fst = Except.ok () ∧
    ((WebSocketHandler.connect false WebSocketHandler.new).snd.events.countP
      Event.isConnectedEv) = 0 ∧
    ((WebSocketHandler.connect false WebSocketHandler.new).snd.events.countP
      Event.isDisconnectedEv) = 1 :=
  C3_connect_unreachable WebSocketHandler.new rfl

/-- Handler state after `connect` against an unreachable endpoint: the
sender handle is installed but the channel's receiver has been dropped. -/
def failedConnectWS : WSState :=
  (WebSocketHandler.connect false WebSocketHandler.new).snd

/-- C8 (amended): transport `send` fails with
`ConnectionError("Not connected")` exactly when no sender handle is
stored; when a handle exists and the channel's consumer is still alive,
`send` enqueues the frame at the back of the queue and returns `Ok` — but
if the consumer has exited (receiver dropped, e.g. after a failed
connection attempt), `send` fails with a different `ConnectionError`
("Failed to send message: ..."), not with "Not connected". -/
theorem C8_send_not_connected_iff_no_handle (st : WSState) (m : WebSocketMessage) :
    (isNotConnectedError (WebSocketHandler.send m st).fst = true ↔ st.tx = none) ∧
    (st.tx.isSome = true → st.queueClosed = false →
      (WebSocketHandler.send m st).fst = Except.ok () ∧
      (WebSocketHandler.send m st).snd.queue = st.queue ++ [m]) := by
  constructor
  · cases htx : st.tx with
    | none => simp [WebSocketHandler.send, htx, isNotConnectedError]
    | some u =>
      cases hq : st.queueClosed <;>
        simp [WebSocketHandler.send, htx, hq, isNotConnectedError]
  · intro hsome hq
    cases htx : st.tx with
    | none => rw [htx] at hsome; simp at hsome
    | some u => simp [WebSocketHandler.send, htx, hq]

/-- Counterexample to C8 as stated: after a failed connection attempt the
sender handle exists, yet `send` does not return `Ok` — the channel's
receiver is gone, so it fails (with a message other than "Not connected"). -/
theorem C8_counterexample :
    failedConnectWS.tx.isSome = true ∧
    isOkResult (WebSocketHandler.send (WebSocketMessage.Text "x") failedConnectWS).fst
      = false ∧
    isNotConnectedError (WebSocketHandler.send (WebSocketMessage.Text "x") failedConnectWS).fst
      = false :=
  ⟨rfl, rfl, by decide⟩

/-- Witness for the amended C8 at a successfully connected handler. -/
theorem C8_send_not_connected_iff_no_handle_witness :
    (WebSocketHandler.send WebSocketMessage.Ping
      (WebSocketHandler.connect true WebSocketHandler.new).snd).fst = Except.ok () ∧
    (WebSocketHandler.send WebSocketMessage.Ping
        (WebSocketHandler.connect true WebSocketHandler.new).snd).snd.queue =
      (WebSocketHandler.connect true WebSocketHandler.new).snd.queue ++
        [WebSocketMessage.Ping] :=
  (C8_send_not_connected_iff_no_handle
    (WebSocketHandler.connect true WebSocketHandler.new).snd WebSocketMessage.Ping).2 rfl rfl

/-- C9: `connect()` always returns `Ok` and installs the sender handle
before the socket is even attempted; the connection-failure path clears
only the connected flag, never the handle — so after any `connect` (and
before any `disconnect`) `send` never returns
`ConnectionError("Not connected")`, even when the socket was never
established; the handle also survives further sends and the reader loop's
termination, and `is_connected()` can report false (after a failed
connect, or after the reader loop ends) while `send` still accepts frames
in the latter case. -/
theorem C9_send_never_not_connected_after_connect (st : WSState) (socketOk : Bool)
    (m : WebSocketMessage) :
    (WebSocketHandler.connect socketOk st).fst = Except.ok () ∧
    (WebSocketHandler.connect socketOk st).snd.tx = some () ∧
    isNotConnectedError
      (WebSocketHandler.send m (WebSocketHandler.connect socketOk st).snd).fst = false ∧
    (WebSocketHandler.send m (WebSocketHandler.connect socketOk st).snd).snd.tx = some () ∧
    (WebSocketHandler.readerLoopEnd (WebSocketHandler.connect socketOk st).snd).tx
      = some () ∧
    (socketOk = false →
      WebSocketHandler.is_connected (WebSocketHandler.connect socketOk st).snd = false) ∧
    (WebSocketHandler.is_connected
        (WebSocketHandler.readerLoopEnd (WebSocketHandler.connect true st).snd) = false ∧
      isOkResult (WebSocketHandler.send m
        (WebSocketHandler.readerLoopEnd (WebSocketHandler.connect true st).snd)).fst
        = true) := by
  cases socketOk <;>
    simp [WebSocketHandler.connect, WebSocketHandler.send, WebSocketHandler.readerLoopEnd,
      WebSocketHandler.is_connected, isNotConnectedError, isOkResult]

/-- Witness for C9's implication at a fresh handler and a failed connect. -/
theorem C9_send_never_not_connected_after_connect_witness :
    WebSocketHandler.is_connected
      (WebSocketHandler.connect false WebSocketHandler.new).snd = false :=
  (C9_send_never_not_connected_after_connect WebSocketHandler.new false
    WebSocketMessage.Ping).2.2.2.2.2.1 rfl
